import Mathlib

/-!
Shallow embedding of the gst-vosk GStreamer element (`src/gstvosk.c`).

The element feeds S16LE mono audio buffers to an external Vosk recognizer,
optionally denoising them with RNNoise first, and posts recognition results
under a timing policy (catch-up throttling and a minimum partial-result
interval).  The external Vosk / RNNoise engines are black boxes; they are
modelled as oracles:

* `VoskEngine` carries, for one ingested buffer, the value that
  `vosk_recognizer_accept_waveform` returned and the JSON payloads the three
  query calls would return (`none` models a `NULL` C string).
* The RNNoise transform is a parameter `rn : List Int → List Int`; it stands
  for the in-place `rnnoise_process_frame` on one frame of float samples.
  Float sample values are modelled as integers (the S16 → float conversion is
  exact on 16-bit values, and the claims under study are about counts, queue
  positions and clamping, not float rounding).

GStreamer 64-bit clock values (`GstClockTime` = `guint64`,
`GstClockTimeDiff` = `gint64`) are modelled as `Nat` / `Int` with the
two's-complement reduction made explicit where the C code casts.
-/

/-- One second in nanoseconds (`GST_SECOND`, a `gint64` constant). -/
def GST_SECOND : Int := 1000000000

/-- One millisecond in nanoseconds (`GST_MSECOND`). -/
def GST_MSECOND : Int := 1000000

/-- `GST_CLOCK_TIME_NONE`, i.e. `(guint64)-1`, the "no time" sentinel. -/
def GST_CLOCK_TIME_NONE : Nat := 18446744073709551615

/-- Reduce a mathematical integer to the signed 64-bit value it denotes in
two's-complement, i.e. the unique representative in `[-2^63, 2^63)`. -/
def toInt64 (x : Int) : Int :=
  (x + 9223372036854775808) % 18446744073709551616 - 9223372036854775808

/-- `GST_CLOCK_DIFF(s, e) = (GstClockTimeDiff)((e) - (s))`: subtraction of
two `guint64` clock values cast to `gint64`. -/
def gst_clock_diff (s e : Nat) : Int :=
  toInt64 ((e : Int) - (s : Int))

/-- `VOSK_EMPTY_PARTIAL_RESULT`, one of the engine's empty sentinels. -/
def VOSK_EMPTY_PARTIAL_RESULT : String := "\x7b\n  \"partial\" : \"\"\n\x7d"

/-- `VOSK_EMPTY_TEXT_RESULT`, one of the engine's empty sentinels. -/
def VOSK_EMPTY_TEXT_RESULT : String := "\x7b\n  \"text\" : \"\"\n\x7d"

/-- `VOSK_EMPTY_TEXT_RESULT_ALT`, the alternate empty-text sentinel. -/
def VOSK_EMPTY_TEXT_RESULT_ALT : String := "\x7b\"text\": \"\"\x7d"

/-- The state of an installed `VoskRecognizer*` handle as far as this element
observes it: which model it was built from, the rate it was bound to, the
alternatives count set on it, and an abstract marker for the engine-internal
decode state that `vosk_recognizer_reset` clears (audio accepted since the
last utterance boundary / reset).  The engine internals behind the handle are
otherwise represented by the `VoskEngine` oracle. -/
structure VoskRecognizer where
  modelId : Nat
  recRate : Int
  maxAlternatives : Int
  decodePending : Nat
deriving Repr, DecidableEq

/-- The fields of `struct _GstVosk` that the verified behaviour depends on.
`recognizer = none` models a `NULL` handle; `current_operation` records
whether a cancellable model-load operation object is installed.
`last_partial_ts` and `prev_partial_cache` carry the C fields named
"last" + "partial" (the timestamp of the last partial query) and
"prev" + "partial" (the cached previous partial string, `none` = `NULL`).
The denoise input accumulator and output queue are kept as lists whose
lengths are the C fill positions `denoise_buffer_pos` and
`denoise_output_pos`. -/
structure GstVosk where
  recognizer : Option VoskRecognizer
  rate : Int
  alternatives : Int
  partial_time_interval : Int
  last_processed_time : Nat
  last_partial_ts : Nat
  prev_partial_cache : Option String
  current_operation : Bool
  use_signals : Bool
  enable_denoise : Bool
  denoise_initialized : Bool
  denoise_input_buffer : List Int
  denoise_output_buffer : List Int
  denoise_buffer_size : Nat
deriving Repr, DecidableEq

/-- Oracle for the external Vosk engine during the handling of one buffer:
the return value of `vosk_recognizer_accept_waveform` and the strings the
three query calls would return (`none` = `NULL`). -/
structure VoskEngine where
  accept : Int
  result : Option String
  final_result : Option String
  partial_result : Option String
deriving Repr, DecidableEq

/-- `gst_vosk_final_result`: query `vosk_recognizer_final_result`, drop the
previous-partial cache, and suppress `NULL` and the two empty text
sentinels.  Returns the payload (if any) and the updated element state. -/
def gst_vosk_final_result (eng : VoskEngine) (vosk : GstVosk) :
    Option String × GstVosk :=
  if vosk.recognizer.isNone then (none, vosk)
  else
    let vosk := { vosk with prev_partial_cache := none }
    match eng.final_result with
    | none => (none, vosk)
    | some json_txt =>
      if json_txt = VOSK_EMPTY_TEXT_RESULT ∨ json_txt = VOSK_EMPTY_TEXT_RESULT_ALT then
        (none, vosk)
      else (some json_txt, vosk)

/-- `gst_vosk_result`: query `vosk_recognizer_result`, drop the
previous-partial cache, and suppress `NULL` and `VOSK_EMPTY_TEXT_RESULT`
(the alternate sentinel is not checked here, unlike in
`gst_vosk_final_result`). -/
def gst_vosk_result (eng : VoskEngine) (vosk : GstVosk) :
    Option String × GstVosk :=
  if vosk.recognizer.isNone then (none, vosk)
  else
    let vosk := { vosk with prev_partial_cache := none }
    match eng.result with
    | none => (none, vosk)
    | some json_txt =>
      if json_txt = VOSK_EMPTY_TEXT_RESULT then (none, vosk)
      else (some json_txt, vosk)

/-- `gst_vosk_partial_result`: query `vosk_recognizer_partial_result`,
suppress `NULL`, the empty-partial sentinel and the alternate empty-text
sentinel, suppress a payload equal to the cached previous partial, and
otherwise update the cache and return the payload to be posted. -/
def gst_vosk_partial_result (eng : VoskEngine) (vosk : GstVosk) :
    Option String × GstVosk :=
  match eng.partial_result with
  | none => (none, vosk)
  | some json_txt =>
    if json_txt = VOSK_EMPTY_PARTIAL_RESULT ∨ json_txt = VOSK_EMPTY_TEXT_RESULT_ALT then
      (none, vosk)
    else if some json_txt = vosk.prev_partial_cache then (none, vosk)
    else (some json_txt, { vosk with prev_partial_cache := some json_txt })

/-- `gst_vosk_result_msg`: run the result query and post its payload (if
any) through `gst_vosk_message_new`.  The returned list is the sequence of
posted payloads. -/
def gst_vosk_result_msg (eng : VoskEngine) (vosk : GstVosk) :
    GstVosk × List String :=
  ((gst_vosk_result eng vosk).2, (gst_vosk_result eng vosk).1.toList)

/-- `gst_vosk_final_result_msg`: run the final-result query and post its
payload, if any. -/
def gst_vosk_final_result_msg (eng : VoskEngine) (vosk : GstVosk) :
    GstVosk × List String :=
  ((gst_vosk_final_result eng vosk).2, (gst_vosk_final_result eng vosk).1.toList)

/-- Which engine query a buffer triggered. -/
inductive Query where
  | finalQ : Query
  | resultQ : Query
  | partialQ : Query
deriving Repr, DecidableEq

/-- Observable outcome of handling one buffer: the new element state,
whether the audio was fed to `vosk_recognizer_accept_waveform`, which result
queries were made for this buffer, and the payloads posted for it. -/
structure ChainOut where
  state : GstVosk
  fed : Bool
  queries : List Query
  emitted : List String
deriving Repr, DecidableEq

/-- `gst_vosk_handle_buffer`: feed one buffer (whose payload, after optional
in-place denoising, has `size` bytes) and apply the timing policy.  The
denoise rewrite itself is modelled separately by `gst_vosk_apply_denoise`;
the oracle `eng` already describes the engine's reaction to the bytes that
were fed.  Mirrors the C control flow: empty buffers are ignored, an
`accept_waveform` error abandons the buffer, a buffer lagging more than
`GST_SECOND / 2` behind the running time is fed but not queried unless at
least `(GST_SECOND << 1) / 10` has elapsed since the last processed buffer,
an utterance boundary triggers the result query, and otherwise a partial
query runs when the configured interval (if non-negative) is strictly
exceeded. -/
def gst_vosk_handle_buffer (eng : VoskEngine) (vosk : GstVosk)
    (buf_pts current_time : Nat) (size : Nat) : ChainOut :=
  if size = 0 then ⟨vosk, false, [], []⟩
  else if eng.accept = -1 then ⟨vosk, true, [], []⟩
  else if gst_clock_diff buf_pts current_time > GST_SECOND / 2 ∧
          gst_clock_diff vosk.last_processed_time buf_pts < GST_SECOND * 2 / 10 then
    ⟨vosk, true, [], []⟩
  else
    let vosk := { vosk with last_processed_time := buf_pts }
    if eng.accept = 1 then
      ⟨{ (gst_vosk_result eng vosk).2 with last_partial_ts := buf_pts }, true,
       [Query.resultQ], (gst_vosk_result eng vosk).1.toList⟩
    else if vosk.partial_time_interval < 0 then ⟨vosk, true, [], []⟩
    else if vosk.partial_time_interval < gst_clock_diff vosk.last_partial_ts buf_pts then
      ⟨{ (gst_vosk_partial_result eng vosk).2 with last_partial_ts := buf_pts }, true,
       [Query.partialQ], (gst_vosk_partial_result eng vosk).1.toList⟩
    else ⟨vosk, true, [], []⟩

/-- `gst_vosk_chain`: per-buffer entry point.  With a recognizer installed,
a missing last-processed time (first buffer after (re)activation) is
initialised to this buffer's timestamp before the buffer is handled; without
a recognizer the buffer only initialises that baseline (first buffer) or is
dropped for recognition purposes, and is passed downstream either way. -/
def gst_vosk_chain (eng : VoskEngine) (vosk : GstVosk)
    (buf_pts current_time : Nat) (size : Nat) : ChainOut :=
  if vosk.recognizer.isSome then
    let vosk :=
      if vosk.last_processed_time = GST_CLOCK_TIME_NONE then
        { vosk with last_processed_time := buf_pts }
      else vosk
    gst_vosk_handle_buffer eng vosk buf_pts current_time size
  else
    let vosk :=
      if vosk.last_processed_time = GST_CLOCK_TIME_NONE then
        { vosk with last_processed_time := buf_pts }
      else vosk
    ⟨vosk, false, [], []⟩

/-- `vosk_recognizer_reset` (external API): clears the engine-internal
decode state of the handle and nothing else. -/
def vosk_recognizer_reset (r : VoskRecognizer) : VoskRecognizer :=
  { r with decodePending := 0 }

/-- `gst_vosk_flush`: under the session lock, reset the recognizer's decode
state if a recognizer is installed; no other field is touched. -/
def gst_vosk_flush (vosk : GstVosk) : GstVosk :=
  { vosk with recognizer := vosk.recognizer.map vosk_recognizer_reset }

/-- `gst_vosk_cancel_model_loading`: cancel and drop the pending
model-loading operation object, if one is installed. -/
def gst_vosk_cancel_model_loading (vosk : GstVosk) : GstVosk :=
  { vosk with current_operation := false }

/-- The sink-pad events the element reacts to. -/
inductive GstEventType where
  | flushStart : GstEventType
  | eos : GstEventType
  | other : GstEventType
deriving Repr, DecidableEq

/-- `gst_vosk_sink_event`: `FLUSH_START` flushes the recognizer, `EOS`
cancels any pending model load and forces one final-result emission; other
events are forwarded untouched.  Returns the new state and the payloads
posted while handling the event. -/
def gst_vosk_sink_event (eng : VoskEngine) (vosk : GstVosk)
    (event : GstEventType) : GstVosk × List String :=
  match event with
  | GstEventType.flushStart => (gst_vosk_flush vosk, [])
  | GstEventType.eos =>
    gst_vosk_final_result_msg eng (gst_vosk_cancel_model_loading vosk)
  | GstEventType.other => (vosk, [])

/-- `RNNOISE_FRAME_SIZE`: the fixed RNNoise frame, 480 samples (10 ms at
48 kHz). -/
def RNNOISE_FRAME_SIZE : Nat := 480

/-- `gst_vosk_convert_float_to_s16` applied to one sample:
`CLAMP(sample, -32768.0f, 32767.0f)` followed by the exact `gint16` cast
(`G_CLAMP` tests the high bound first). -/
def clamp_s16 (sample : Int) : Int :=
  if sample > 32767 then 32767 else if sample < -32768 then -32768 else sample

/-- `gst_vosk_convert_float_to_s16`: clamp each float sample into the
16-bit range and cast. -/
def gst_vosk_convert_float_to_s16 (samples : List Int) : List Int :=
  samples.map clamp_s16

/-- The accumulation loop of `gst_vosk_apply_denoise`: walk the incoming
S16 samples (the C code copies them chunkwise with
`to_copy = MIN(RNNOISE_FRAME_SIZE - pos, remaining)`, which is sample-for-
sample the same walk), appending each to the input accumulator; whenever the
accumulator reaches exactly one frame, run the transform in place and append
the cleaned frame to the output queue when `output_pos + RNNOISE_FRAME_SIZE
<= denoise_buffer_size`, otherwise drop the frame; then reset the
accumulator.  Returns the final accumulator, the final output queue, and the
number of `rnnoise_process_frame` invocations. -/
def denoiseAccum (rn : List Int → List Int) (cap : Nat) :
    List Int → List Int → List Int → Nat → List Int × List Int × Nat
  | [], acc, out, n => (acc, out, n)
  | x :: rest, acc, out, n =>
    if (acc ++ [x]).length = RNNOISE_FRAME_SIZE then
      let clean := rn (acc ++ [x])
      let out' := if out.length + RNNOISE_FRAME_SIZE ≤ cap then out ++ clean else out
      denoiseAccum rn cap rest [] out' (n + 1)
    else
      denoiseAccum rn cap rest (acc ++ [x]) out n

/-- `gst_vosk_apply_denoise`: a no-op unless denoising is enabled,
initialised and the bound rate is 48000.  Otherwise accumulate the buffer's
samples into frames (running the transform once per completed frame), then
rewrite the buffer with `MIN(output_pos, buffer_samples)` clean samples
taken from the front of the output queue (converted back to S16 with
clamping, the remainder of the queue shifted down) and fill any shortfall
with silence.  Returns the new state, the rewritten buffer contents and the
number of transform invocations. -/
def gst_vosk_apply_denoise (rn : List Int → List Int) (vosk : GstVosk)
    (buf : List Int) : GstVosk × List Int × Nat :=
  if ¬ vosk.enable_denoise ∨ ¬ vosk.denoise_initialized then (vosk, buf, 0)
  else if vosk.rate ≠ 48000 then (vosk, buf, 0)
  else
    let acc := (denoiseAccum rn vosk.denoise_buffer_size buf
                 vosk.denoise_input_buffer vosk.denoise_output_buffer 0).1
    let out := (denoiseAccum rn vosk.denoise_buffer_size buf
                 vosk.denoise_input_buffer vosk.denoise_output_buffer 0).2.1
    let n := (denoiseAccum rn vosk.denoise_buffer_size buf
               vosk.denoise_input_buffer vosk.denoise_output_buffer 0).2.2
    let samples_to_write := min out.length buf.length
    let rewritten := gst_vosk_convert_float_to_s16 (out.take samples_to_write) ++
                     List.replicate (buf.length - samples_to_write) 0
    ({ vosk with denoise_input_buffer := acc,
                 denoise_output_buffer := out.drop samples_to_write },
     rewritten, n)

/-- Feed a sequence of buffers through `gst_vosk_apply_denoise`, returning
the final state and the total number of transform invocations. -/
def applyDenoiseSeq (rn : List Int → List Int) (vosk : GstVosk) :
    List (List Int) → GstVosk × Nat
  | [] => (vosk, 0)
  | b :: bs =>
    ((applyDenoiseSeq rn (gst_vosk_apply_denoise rn vosk b).1 bs).1,
     (gst_vosk_apply_denoise rn vosk b).2.2 +
       (applyDenoiseSeq rn (gst_vosk_apply_denoise rn vosk b).1 bs).2)

/-- `gst_vosk_init_denoise`: when denoising is enabled and not yet
initialised and a positive rate is known, (re)allocate the two-frame input
and output buffers (empty, zeroed) and mark the denoiser initialised. -/
def gst_vosk_init_denoise (vosk : GstVosk) (caps_rate : Int) : GstVosk :=
  if ¬ vosk.enable_denoise ∨ vosk.denoise_initialized then vosk
  else if caps_rate ≤ 0 then vosk
  else
    { vosk with denoise_buffer_size := RNNOISE_FRAME_SIZE * 2,
                denoise_input_buffer := [],
                denoise_output_buffer := [],
                denoise_initialized := true }

/-- `gst_vosk_recognizer_new`: record the negotiated caps rate in the
element, fail if it is not positive or no model was provided, otherwise set
up the denoiser (when enabled), create the recognizer bound to that rate and
set its alternatives count.  `model` is the identity of the
externally-constructed `VoskModel*` (`none` = `NULL`). -/
def gst_vosk_recognizer_new (vosk : GstVosk) (caps_rate : Int)
    (model : Option Nat) : GstVosk × Bool :=
  let vosk := { vosk with rate := caps_rate }
  if caps_rate ≤ 0 then (vosk, false)
  else
    match model with
    | none => (vosk, false)
    | some mid =>
      let vosk := if vosk.enable_denoise then gst_vosk_init_denoise vosk caps_rate else vosk
      ({ vosk with recognizer := some ⟨mid, caps_rate, vosk.alternatives, 0⟩ }, true)

/-- Externally observable effects of one run of the model-loading worker. -/
structure LoadOutcome where
  installedNew : Bool
  modelFreed : Bool
  errorReported : Bool
  asyncCompleted : Bool
deriving Repr, DecidableEq

/-- `gst_vosk_load_model_async`, the worker body.  `cancelled1` and
`cancelled2` are the values the cooperative cancellation flag of this
request's token shows at the two check points (before construction, and
after construction under the session lock); `built_model` is what
`vosk_model_new` produced (`none` = `NULL`); `caps_rate` is the rate the
sink caps carry at installation time.  If cancelled before construction the
worker leaves with no side effect at all; past construction it drops the
element's pending-operation object (the point of no return), and if
cancelled at the second check it frees the fresh model and leaves everything
else untouched; a `NULL` model reports a fatal resource error; otherwise the
recognizer is installed under the lock and the asynchronous state change is
completed. -/
def gst_vosk_load_model_async (cancelled1 cancelled2 : Bool)
    (built_model : Option Nat) (caps_rate : Int) (vosk : GstVosk) :
    GstVosk × LoadOutcome :=
  if cancelled1 then (vosk, ⟨false, false, false, false⟩)
  else
    let vosk := { vosk with current_operation := false }
    if cancelled2 then (vosk, ⟨false, true, false, false⟩)
    else
      match built_model with
      | none => (vosk, ⟨false, false, true, false⟩)
      | some mid =>
        ((gst_vosk_recognizer_new vosk caps_rate (some mid)).1,
         ⟨(gst_vosk_recognizer_new vosk caps_rate (some mid)).2, true, false, true⟩)

/-- The `PROP_PARTIAL_RESULTS_INTERVAL` branch of `gst_vosk_set_property`:
store the millisecond value multiplied by `GST_MSECOND`, as a `gint64`
(i.e. reduced to 64-bit two's-complement). -/
def gst_vosk_set_partial_results_interval (vosk : GstVosk) (v : Int) : GstVosk :=
  { vosk with partial_time_interval := toInt64 (v * GST_MSECOND) }

/-- The `PROP_PARTIAL_RESULTS_INTERVAL` branch of `gst_vosk_get_property`:
divide the stored nanosecond value by `GST_MSECOND` (C `gint64` division,
truncating towards zero). -/
def gst_vosk_get_partial_results_interval (vosk : GstVosk) : Int :=
  Int.tdiv vosk.partial_time_interval GST_MSECOND

/-! ### Concrete fixtures used by witnesses and counterexamples -/

/-- A recognizer handle as installed for a 16 kHz session. -/
def rec16k : VoskRecognizer := ⟨1, 16000, 0, 0⟩

/-- A ready element state: recognizer installed at 16 kHz, partial results
enabled with a zero interval, timing fields at zero, caches empty. -/
def state0 : GstVosk :=
  { recognizer := some rec16k
    rate := 16000
    alternatives := 0
    partial_time_interval := 0
    last_processed_time := 0
    last_partial_ts := 0
    prev_partial_cache := none
    current_operation := false
    use_signals := false
    enable_denoise := false
    denoise_initialized := false
    denoise_input_buffer := []
    denoise_output_buffer := []
    denoise_buffer_size := 0 }

/-- Engine oracle: no boundary, no payloads. -/
def engQuiet : VoskEngine := ⟨0, none, none, none⟩

/-! ### Claim C1 — catch-up throttling -/

/-- Helper: handling a non-empty buffer always feeds the audio to the
recognizer, whatever the timing decision. -/
theorem handle_buffer_fed (eng : VoskEngine) (s : GstVosk)
    (buf_pts current_time size : Nat) (hsize : size ≠ 0) :
    (gst_vosk_handle_buffer eng s buf_pts current_time size).fed = true := by
  unfold gst_vosk_handle_buffer
  rw [if_neg hsize]
  dsimp only
  split
  · rfl
  · split
    · rfl
    · split
      · rfl
      · split
        · rfl
        · split
          · rfl
          · rfl

/-- Claim C1 (amended): for a buffer ingested while a recognizer is
installed whose lag behind the current running time exceeds 500 ms, a result
query (final or partial) is performed only when the elapsed time since the
last processed buffer's timestamp is at least 200 ms; when it is below
200 ms the buffer is still fed to the recognizer but no query of any kind is
made and nothing is emitted for it.  (The source gate is
`diff_time < (GST_SECOND << 1) / 10`, so elapsed = exactly 200 ms already
allows a query, where the original claim required strictly more.) -/
theorem C1_catchup_throttle (eng : VoskEngine) (s : GstVosk)
    (r : VoskRecognizer) (buf_pts current_time size : Nat)
    (_hrec : s.recognizer = some r) (hsize : size ≠ 0)
    (hlag : gst_clock_diff buf_pts current_time > GST_SECOND / 2) :
    (gst_vosk_handle_buffer eng s buf_pts current_time size).fed = true ∧
    ((gst_vosk_handle_buffer eng s buf_pts current_time size).queries ≠ [] →
      GST_SECOND * 2 / 10 ≤ gst_clock_diff s.last_processed_time buf_pts) ∧
    (gst_clock_diff s.last_processed_time buf_pts < GST_SECOND * 2 / 10 →
      (gst_vosk_handle_buffer eng s buf_pts current_time size).queries = [] ∧
      (gst_vosk_handle_buffer eng s buf_pts current_time size).emitted = []) := by
  refine ⟨handle_buffer_fed eng s buf_pts current_time size hsize, ?_, ?_⟩
  · intro hq
    by_contra hlt
    apply hq
    unfold gst_vosk_handle_buffer
    rw [if_neg hsize]
    split
    · rfl
    · rw [if_pos ⟨hlag, not_le.mp hlt⟩]
  · intro hlt
    unfold gst_vosk_handle_buffer
    rw [if_neg hsize]
    constructor
    · split
      · rfl
      · rw [if_pos ⟨hlag, hlt⟩]
    · split
      · rfl
      · rw [if_pos ⟨hlag, hlt⟩]

/-- Engine oracle for the C1 counterexample: an utterance boundary with a
non-empty result payload. -/
def engC1 : VoskEngine := ⟨1, some "hello", none, none⟩

/-- Counterexample to claim C1 as stated: a buffer lagging more than 500 ms
whose elapsed time since the last processed buffer is exactly 200 ms — not
strictly more — still gets a result query (and an emission), whereas the
claim says no query of any kind should be made for it. -/
theorem C1_counterexample :
    gst_clock_diff 200000000 800000001 > GST_SECOND / 2 ∧
    ¬ GST_SECOND * 2 / 10 < gst_clock_diff state0.last_processed_time 200000000 ∧
    (gst_vosk_handle_buffer engC1 state0 200000000 800000001 100).queries =
      [Query.resultQ] ∧
    (gst_vosk_handle_buffer engC1 state0 200000000 800000001 100).emitted =
      ["hello"] := by decide

/-- Witness for `C1_catchup_throttle` at a concrete input (lag 600 ms,
elapsed 0 ms since the last processed buffer). -/
theorem C1_catchup_throttle_witness :
    state0.recognizer = some rec16k ∧ (100 : Nat) ≠ 0 ∧
    gst_clock_diff 0 600000000 > GST_SECOND / 2 ∧
    ((gst_vosk_handle_buffer engC1 state0 0 600000000 100).fed = true ∧
     ((gst_vosk_handle_buffer engC1 state0 0 600000000 100).queries ≠ [] →
       GST_SECOND * 2 / 10 ≤ gst_clock_diff state0.last_processed_time 0) ∧
     (gst_clock_diff state0.last_processed_time 0 < GST_SECOND * 2 / 10 →
       (gst_vosk_handle_buffer engC1 state0 0 600000000 100).queries = [] ∧
       (gst_vosk_handle_buffer engC1 state0 0 600000000 100).emitted = [])) :=
  ⟨by decide, by decide, by decide,
   C1_catchup_throttle engC1 state0 rec16k 0 600000000 100 (by decide) (by decide)
     (by decide)⟩

/-! ### Claim C2 — utterance boundary handling -/

/-- Helper: with a recognizer installed, the result query always drops the
previous-partial cache and changes nothing else in the element state. -/
theorem gst_vosk_result_state (eng : VoskEngine) (v : GstVosk)
    (r : VoskRecognizer) (hrec : v.recognizer = some r) :
    (gst_vosk_result eng v).2 = { v with prev_partial_cache := none } := by
  unfold gst_vosk_result
  rw [hrec, if_neg (by simp)]
  dsimp only
  cases eng.result with
  | none => rfl
  | some j =>
    dsimp only
    split
    · rfl
    · rfl

/-- Helper: with a recognizer installed, the result query returns the
engine's payload unless it is `NULL` or the empty-text sentinel. -/
theorem gst_vosk_result_payload (eng : VoskEngine) (v : GstVosk)
    (r : VoskRecognizer) (hrec : v.recognizer = some r) :
    (gst_vosk_result eng v).1 =
      match eng.result with
      | none => none
      | some j => if j = VOSK_EMPTY_TEXT_RESULT then none else some j := by
  unfold gst_vosk_result
  rw [hrec, if_neg (by simp)]
  dsimp only
  cases eng.result with
  | none => rfl
  | some j =>
    dsimp only
    split
    · rfl
    · rfl

/-- Claim C2 (amended): when ingesting a buffer makes the engine report an
utterance boundary (`accept_waveform` returns 1) and the buffer is not
skipped by the catch-up throttle, exactly one query — the result query — is
performed, regardless of the partial-interval setting; its payload is
emitted exactly once when it is non-`NULL` and not the empty-text sentinel
(and not at all otherwise); the last-partial timestamp is recorded as this
buffer's timestamp; no partial query is made for this buffer; and the
partial de-duplication cache is cleared by the query. -/
theorem C2_final_boundary (eng : VoskEngine) (s : GstVosk)
    (r : VoskRecognizer) (buf_pts current_time size : Nat)
    (hrec : s.recognizer = some r) (hsize : size ≠ 0) (hacc : eng.accept = 1)
    (hnoskip : ¬ (gst_clock_diff buf_pts current_time > GST_SECOND / 2 ∧
                  gst_clock_diff s.last_processed_time buf_pts < GST_SECOND * 2 / 10)) :
    (gst_vosk_handle_buffer eng s buf_pts current_time size).queries = [Query.resultQ] ∧
    (gst_vosk_handle_buffer eng s buf_pts current_time size).state.last_partial_ts = buf_pts ∧
    (gst_vosk_handle_buffer eng s buf_pts current_time size).state.prev_partial_cache = none ∧
    (eng.result = none →
      (gst_vosk_handle_buffer eng s buf_pts current_time size).emitted = []) ∧
    (eng.result = some VOSK_EMPTY_TEXT_RESULT →
      (gst_vosk_handle_buffer eng s buf_pts current_time size).emitted = []) ∧
    (∀ j, eng.result = some j → j ≠ VOSK_EMPTY_TEXT_RESULT →
      (gst_vosk_handle_buffer eng s buf_pts current_time size).emitted = [j]) := by
  have hne : ¬ eng.accept = -1 := by rw [hacc]; decide
  have hrec' : ({ s with last_processed_time := buf_pts } : GstVosk).recognizer = some r := hrec
  have hmain : gst_vosk_handle_buffer eng s buf_pts current_time size =
      ⟨{ (gst_vosk_result eng { s with last_processed_time := buf_pts }).2 with
           last_partial_ts := buf_pts },
       true, [Query.resultQ],
       (gst_vosk_result eng { s with last_processed_time := buf_pts }).1.toList⟩ := by
    unfold gst_vosk_handle_buffer
    rw [if_neg hsize, if_neg hne, if_neg hnoskip]
    dsimp only
    rw [if_pos hacc]
  rw [hmain]
  refine ⟨rfl, rfl, ?_, ?_, ?_, ?_⟩
  · rw [gst_vosk_result_state eng _ r hrec']
  · intro hres
    rw [gst_vosk_result_payload eng _ r hrec', hres]
    rfl
  · intro hres
    rw [gst_vosk_result_payload eng _ r hrec', hres]
    dsimp only
    rw [if_pos rfl]
    rfl
  · intro j hres hj
    rw [gst_vosk_result_payload eng _ r hrec', hres]
    dsimp only
    rw [if_neg hj]
    rfl

/-- Engine oracle: boundary reported, non-empty payload. -/
def engC2a : VoskEngine := ⟨1, some "x", none, none⟩

/-- Engine oracle: boundary reported, empty-text sentinel payload. -/
def engC2b : VoskEngine := ⟨1, some VOSK_EMPTY_TEXT_RESULT, none, none⟩

/-- Counterexample to claim C2 as stated: (a) a buffer that reports an
utterance boundary but lags 600 ms with only 100 ms elapsed since the last
processed buffer is not queried at all — nothing is emitted and the
last-partial timestamp is not recorded — so the final result is not queried
"unconditionally"; (b) a boundary buffer whose payload is the empty-text
sentinel is queried but emits nothing, so no final result is "emitted …
exactly once". -/
theorem C2_counterexample :
    (engC2a.accept = 1 ∧
     gst_clock_diff 100000000 700000001 > GST_SECOND / 2 ∧
     (gst_vosk_handle_buffer engC2a state0 100000000 700000001 100).queries = [] ∧
     (gst_vosk_handle_buffer engC2a state0 100000000 700000001 100).emitted = [] ∧
     (gst_vosk_handle_buffer engC2a state0 100000000 700000001 100).state.last_partial_ts
       = 0) ∧
    (engC2b.accept = 1 ∧
     (gst_vosk_handle_buffer engC2b state0 0 0 100).queries = [Query.resultQ] ∧
     (gst_vosk_handle_buffer engC2b state0 0 0 100).emitted = []) := by decide

/-- Witness for `C2_final_boundary` at a concrete input (no lag, boundary
reported, payload "x"). -/
theorem C2_final_boundary_witness :
    state0.recognizer = some rec16k ∧ (100 : Nat) ≠ 0 ∧ engC2a.accept = 1 ∧
    ¬ (gst_clock_diff 0 0 > GST_SECOND / 2 ∧
       gst_clock_diff state0.last_processed_time 0 < GST_SECOND * 2 / 10) ∧
    ((gst_vosk_handle_buffer engC2a state0 0 0 100).queries = [Query.resultQ] ∧
     (gst_vosk_handle_buffer engC2a state0 0 0 100).state.last_partial_ts = 0 ∧
     (gst_vosk_handle_buffer engC2a state0 0 0 100).state.prev_partial_cache = none ∧
     (engC2a.result = none →
       (gst_vosk_handle_buffer engC2a state0 0 0 100).emitted = []) ∧
     (engC2a.result = some VOSK_EMPTY_TEXT_RESULT →
       (gst_vosk_handle_buffer engC2a state0 0 0 100).emitted = []) ∧
     (∀ j, engC2a.result = some j → j ≠ VOSK_EMPTY_TEXT_RESULT →
       (gst_vosk_handle_buffer engC2a state0 0 0 100).emitted = [j])) :=
  ⟨by decide, by decide, by decide, by decide,
   C2_final_boundary engC2a state0 rec16k 0 0 100 (by decide) (by decide)
     (by decide) (by decide)⟩

/-! ### Claim C3 — partial-result cadence -/

/-- Claim C3 (amended): for a buffer that reports no utterance boundary
(`accept_waveform` returns 0) while a recognizer is installed: when the
configured interval is negative, no query is ever made; when the interval is
non-negative and the buffer is not skipped by the catch-up throttle, a
partial query is performed exactly when the buffer's timestamp minus the
last-partial timestamp strictly exceeds the interval, in which case the
last-partial timestamp is updated to this buffer's timestamp and the payload
is emitted only when it is non-`NULL`, not an empty sentinel and textually
different from the cached previous partial (the cache then being updated to
it); otherwise nothing is queried, emitted or updated. -/
theorem C3_partial_policy (eng : VoskEngine) (s : GstVosk) (r : VoskRecognizer)
    (buf_pts current_time size : Nat)
    (_hrec : s.recognizer = some r) (hsize : size ≠ 0) (hacc : eng.accept = 0) :
    (s.partial_time_interval < 0 →
      (gst_vosk_handle_buffer eng s buf_pts current_time size).queries = []) ∧
    (0 ≤ s.partial_time_interval →
     ¬ (gst_clock_diff buf_pts current_time > GST_SECOND / 2 ∧
        gst_clock_diff s.last_processed_time buf_pts < GST_SECOND * 2 / 10) →
      (((gst_vosk_handle_buffer eng s buf_pts current_time size).queries =
          [Query.partialQ]) ↔
        s.partial_time_interval < gst_clock_diff s.last_partial_ts buf_pts) ∧
      (¬ s.partial_time_interval < gst_clock_diff s.last_partial_ts buf_pts →
        (gst_vosk_handle_buffer eng s buf_pts current_time size).emitted = [] ∧
        (gst_vosk_handle_buffer eng s buf_pts current_time size).state.last_partial_ts =
          s.last_partial_ts) ∧
      (s.partial_time_interval < gst_clock_diff s.last_partial_ts buf_pts →
        (gst_vosk_handle_buffer eng s buf_pts current_time size).state.last_partial_ts =
          buf_pts ∧
        ((eng.partial_result = none ∨
          eng.partial_result = some VOSK_EMPTY_PARTIAL_RESULT ∨
          eng.partial_result = some VOSK_EMPTY_TEXT_RESULT_ALT) →
          (gst_vosk_handle_buffer eng s buf_pts current_time size).emitted = [] ∧
          (gst_vosk_handle_buffer eng s buf_pts current_time size).state.prev_partial_cache =
            s.prev_partial_cache) ∧
        (∀ t, eng.partial_result = some t → t ≠ VOSK_EMPTY_PARTIAL_RESULT →
          t ≠ VOSK_EMPTY_TEXT_RESULT_ALT →
          (s.prev_partial_cache = some t →
            (gst_vosk_handle_buffer eng s buf_pts current_time size).emitted = [] ∧
            (gst_vosk_handle_buffer eng s buf_pts current_time size).state.prev_partial_cache =
              s.prev_partial_cache) ∧
          (s.prev_partial_cache ≠ some t →
            (gst_vosk_handle_buffer eng s buf_pts current_time size).emitted = [t] ∧
            (gst_vosk_handle_buffer eng s buf_pts current_time size).state.prev_partial_cache =
              some t)))) := by
  have hne : ¬ eng.accept = -1 := by rw [hacc]; decide
  constructor
  · intro hneg
    unfold gst_vosk_handle_buffer
    rw [if_neg hsize, if_neg hne]
    split
    · rfl
    · dsimp only
      rw [hacc, if_neg (by decide : ¬ ((0 : Int) = 1)), if_pos hneg]
  · intro hpos hnoskip
    have hnneg : ¬ s.partial_time_interval < 0 := not_lt.mpr hpos
    by_cases hq : s.partial_time_interval < gst_clock_diff s.last_partial_ts buf_pts
    · have hmain : gst_vosk_handle_buffer eng s buf_pts current_time size =
          ⟨{ (gst_vosk_partial_result eng
                { s with last_processed_time := buf_pts }).2 with
               last_partial_ts := buf_pts },
           true, [Query.partialQ],
           (gst_vosk_partial_result eng
             { s with last_processed_time := buf_pts }).1.toList⟩ := by
        unfold gst_vosk_handle_buffer
        rw [if_neg hsize, if_neg hne, if_neg hnoskip]
        dsimp only
        rw [hacc, if_neg (by decide : ¬ ((0 : Int) = 1)), if_neg hnneg, if_pos hq]
      rw [hmain]
      refine ⟨⟨fun _ => hq, fun _ => rfl⟩, fun hnq => absurd hq hnq, fun _ => ⟨rfl, ?_, ?_⟩⟩
      · intro hres
        rcases hres with h | h | h
        · unfold gst_vosk_partial_result
          rw [h]
          exact ⟨rfl, rfl⟩
        · unfold gst_vosk_partial_result
          rw [h]
          dsimp only
          rw [if_pos (Or.inl rfl)]
          exact ⟨rfl, rfl⟩
        · unfold gst_vosk_partial_result
          rw [h]
          dsimp only
          rw [if_pos (Or.inr rfl)]
          exact ⟨rfl, rfl⟩
      · intro t ht ht1 ht2
        have hsent : ¬ (t = VOSK_EMPTY_PARTIAL_RESULT ∨ t = VOSK_EMPTY_TEXT_RESULT_ALT) :=
          fun h => h.elim ht1 ht2
        constructor
        · intro hprev
          unfold gst_vosk_partial_result
          rw [ht]
          dsimp only
          rw [if_neg hsent, if_pos (by rw [hprev])]
          exact ⟨rfl, rfl⟩
        · intro hprev
          unfold gst_vosk_partial_result
          rw [ht]
          dsimp only
          rw [if_neg hsent, if_neg (fun hcond => hprev hcond.symm)]
          exact ⟨rfl, rfl⟩
    · have hmain : gst_vosk_handle_buffer eng s buf_pts current_time size =
          ⟨{ s with last_processed_time := buf_pts }, true, [], []⟩ := by
        unfold gst_vosk_handle_buffer
        rw [if_neg hsize, if_neg hne, if_neg hnoskip]
        dsimp only
        rw [hacc, if_neg (by decide : ¬ ((0 : Int) = 1)), if_neg hnneg, if_neg hq]
      rw [hmain]
      exact ⟨⟨fun hl => by simp at hl, fun hl => absurd hl hq⟩,
             fun _ => ⟨rfl, rfl⟩, fun hl => absurd hl hq⟩

/-- Engine oracle for C3: no boundary, a non-empty partial payload. -/
def engC3 : VoskEngine := ⟨0, none, none, some "p"⟩

/-- Counterexample to claim C3 as stated: with a non-negative interval (0)
and no boundary, a buffer whose timestamp minus the last-partial timestamp
(100 ms) strictly exceeds the interval should be partial-queried according
to the claim, but in catch-up mode (lag 600 ms, elapsed 100 ms < 200 ms) the
code skips all querying, so no partial query happens. -/
theorem C3_counterexample :
    state0.partial_time_interval = 0 ∧ engC3.accept = 0 ∧
    state0.partial_time_interval < gst_clock_diff state0.last_partial_ts 100000000 ∧
    gst_clock_diff 100000000 700000001 > GST_SECOND / 2 ∧
    (gst_vosk_handle_buffer engC3 state0 100000000 700000001 100).queries = [] := by
  decide

/-- Witness for `C3_partial_policy` at a concrete input (no lag, interval 0,
100 ms since the last partial, payload "p", empty cache). -/
theorem C3_partial_policy_witness :
    state0.recognizer = some rec16k ∧ (100 : Nat) ≠ 0 ∧ engC3.accept = 0 ∧
    ((state0.partial_time_interval < 0 →
      (gst_vosk_handle_buffer engC3 state0 100000000 100000000 100).queries = []) ∧
    (0 ≤ state0.partial_time_interval →
     ¬ (gst_clock_diff 100000000 100000000 > GST_SECOND / 2 ∧
        gst_clock_diff state0.last_processed_time 100000000 < GST_SECOND * 2 / 10) →
      (((gst_vosk_handle_buffer engC3 state0 100000000 100000000 100).queries =
          [Query.partialQ]) ↔
        state0.partial_time_interval < gst_clock_diff state0.last_partial_ts 100000000) ∧
      (¬ state0.partial_time_interval < gst_clock_diff state0.last_partial_ts 100000000 →
        (gst_vosk_handle_buffer engC3 state0 100000000 100000000 100).emitted = [] ∧
        (gst_vosk_handle_buffer engC3 state0 100000000 100000000 100).state.last_partial_ts =
          state0.last_partial_ts) ∧
      (state0.partial_time_interval < gst_clock_diff state0.last_partial_ts 100000000 →
        (gst_vosk_handle_buffer engC3 state0 100000000 100000000 100).state.last_partial_ts =
          100000000 ∧
        ((engC3.partial_result = none ∨
          engC3.partial_result = some VOSK_EMPTY_PARTIAL_RESULT ∨
          engC3.partial_result = some VOSK_EMPTY_TEXT_RESULT_ALT) →
          (gst_vosk_handle_buffer engC3 state0 100000000 100000000 100).emitted = [] ∧
          (gst_vosk_handle_buffer engC3 state0 100000000 100000000 100).state.prev_partial_cache =
            state0.prev_partial_cache) ∧
        (∀ t, engC3.partial_result = some t → t ≠ VOSK_EMPTY_PARTIAL_RESULT →
          t ≠ VOSK_EMPTY_TEXT_RESULT_ALT →
          (state0.prev_partial_cache = some t →
            (gst_vosk_handle_buffer engC3 state0 100000000 100000000 100).emitted = [] ∧
            (gst_vosk_handle_buffer engC3 state0 100000000 100000000 100).state.prev_partial_cache =
              state0.prev_partial_cache) ∧
          (state0.prev_partial_cache ≠ some t →
            (gst_vosk_handle_buffer engC3 state0 100000000 100000000 100).emitted = [t] ∧
            (gst_vosk_handle_buffer engC3 state0 100000000 100000000 100).state.prev_partial_cache =
              some t))))) :=
  ⟨by decide, by decide, by decide,
   C3_partial_policy engC3 state0 rec16k 100000000 100000000 100 (by decide)
     (by decide) (by decide)⟩

/-! ### Claim C4 — flush keeps the binding -/

/-- Claim C4 (amended): on a flush event while a recognizer is installed,
only the engine's internal decode state is reset: the recognizer handle
stays installed with the same model binding, bound rate and alternatives
count, the element's rate is untouched, no model load is started, nothing is
emitted — and the partial de-duplication cache is left unchanged (the code
does not clear it on flush). -/
theorem C4_flush_keeps_binding (eng : VoskEngine) (s : GstVosk)
    (r : VoskRecognizer) (hrec : s.recognizer = some r) :
    gst_vosk_sink_event eng s GstEventType.flushStart =
      ({ s with recognizer := some { r with decodePending := 0 } }, []) := by
  unfold gst_vosk_sink_event gst_vosk_flush vosk_recognizer_reset
  rw [hrec]
  rfl

/-- A ready state whose partial de-duplication cache is non-empty. -/
def stateC4 : GstVosk := { state0 with prev_partial_cache := some "p" }

/-- Counterexample to claim C4 as stated: flushing with a recognizer
installed leaves the partial de-duplication cache exactly as it was — it is
not cleared, contrary to the claim. -/
theorem C4_counterexample :
    stateC4.recognizer.isSome = true ∧ stateC4.prev_partial_cache = some "p" ∧
    (gst_vosk_sink_event engQuiet stateC4 GstEventType.flushStart).1.prev_partial_cache =
      some "p" := by decide

/-- Witness for `C4_flush_keeps_binding` at a concrete state. -/
theorem C4_flush_keeps_binding_witness :
    state0.recognizer = some rec16k ∧
    gst_vosk_sink_event engQuiet state0 GstEventType.flushStart =
      ({ state0 with recognizer := some { rec16k with decodePending := 0 } }, []) :=
  ⟨by decide, C4_flush_keeps_binding engQuiet state0 rec16k (by decide)⟩

/-! ### Claim C5 — first buffer after (re)activation -/

/-- Helper: the result query never changes the last-processed timestamp. -/
theorem gst_vosk_result_keeps_last_processed (eng : VoskEngine) (v : GstVosk) :
    (gst_vosk_result eng v).2.last_processed_time = v.last_processed_time := by
  unfold gst_vosk_result
  split
  · rfl
  · dsimp only
    cases eng.result with
    | none => rfl
    | some j =>
      dsimp only
      split
      · rfl
      · rfl

/-- Helper: the partial query never changes the last-processed timestamp. -/
theorem gst_vosk_partial_result_keeps_last_processed (eng : VoskEngine) (v : GstVosk) :
    (gst_vosk_partial_result eng v).2.last_processed_time = v.last_processed_time := by
  unfold gst_vosk_partial_result
  cases eng.partial_result with
  | none => rfl
  | some j =>
    dsimp only
    split
    · rfl
    · split
      · rfl
      · rfl

/-- Helper: if the last-processed timestamp already equals the buffer's
timestamp, handling the buffer leaves it at that value. -/
theorem handle_buffer_keeps_pts (eng : VoskEngine) (v : GstVosk)
    (buf_pts current_time size : Nat) (h : v.last_processed_time = buf_pts) :
    (gst_vosk_handle_buffer eng v buf_pts current_time size).state.last_processed_time =
      buf_pts := by
  unfold gst_vosk_handle_buffer
  split
  · exact h
  · split
    · exact h
    · split
      · exact h
      · dsimp only
        split
        · show (gst_vosk_result eng
              { v with last_processed_time := buf_pts }).2.last_processed_time = buf_pts
          rw [gst_vosk_result_keeps_last_processed]
        · split
          · rfl
          · split
            · show (gst_vosk_partial_result eng
                  { v with last_processed_time := buf_pts }).2.last_processed_time = buf_pts
              rw [gst_vosk_partial_result_keeps_last_processed]
            · rfl

/-- Helper: the signed clock difference of a timestamp with itself is 0. -/
theorem gst_clock_diff_self (x : Nat) : gst_clock_diff x x = 0 := by
  unfold gst_clock_diff toInt64
  omega

/-- Claim C5 (amended): for the first buffer delivered after (re)activation
(no prior last-processed timestamp), the buffer's timestamp becomes the
last-processed baseline; when no recognizer is installed yet (model still
loading), the buffer is not fed and nothing is queried or emitted; when a
recognizer is already installed, the elapsed-time baseline is zero, so if
the buffer lags the running time by more than 500 ms the catch-up gate
skips all querying and nothing is emitted — but without such lag the buffer
is processed normally and may emit. -/
theorem C5_first_buffer (eng : VoskEngine) (s : GstVosk)
    (buf_pts current_time size : Nat)
    (hfirst : s.last_processed_time = GST_CLOCK_TIME_NONE) :
    (gst_vosk_chain eng s buf_pts current_time size).state.last_processed_time =
      buf_pts ∧
    (s.recognizer = none →
      (gst_vosk_chain eng s buf_pts current_time size).state =
        { s with last_processed_time := buf_pts } ∧
      (gst_vosk_chain eng s buf_pts current_time size).fed = false ∧
      (gst_vosk_chain eng s buf_pts current_time size).queries = [] ∧
      (gst_vosk_chain eng s buf_pts current_time size).emitted = []) ∧
    (s.recognizer.isSome = true →
      gst_clock_diff buf_pts current_time > GST_SECOND / 2 →
      (gst_vosk_chain eng s buf_pts current_time size).queries = [] ∧
      (gst_vosk_chain eng s buf_pts current_time size).emitted = []) := by
  cases hr : s.recognizer with
  | none =>
    have h1 : ¬ (s.recognizer.isSome = true) := by rw [hr]; decide
    unfold gst_vosk_chain
    rw [if_neg h1, if_pos hfirst]
    refine ⟨rfl, fun _ => ?_, fun hsome _ => ?_⟩
    · exact ⟨by rw [hr], rfl, rfl, rfl⟩
    · exact absurd hsome (by decide)
  | some r =>
    have h1 : s.recognizer.isSome = true := by rw [hr]; rfl
    unfold gst_vosk_chain
    rw [if_pos h1, if_pos hfirst]
    refine ⟨handle_buffer_keeps_pts eng _ buf_pts current_time size rfl,
            fun hnone => ?_, fun _ hlag => ?_⟩
    · exact Option.noConfusion hnone
    · have hel : gst_clock_diff
          ({ s with last_processed_time := buf_pts } : GstVosk).last_processed_time
          buf_pts < GST_SECOND * 2 / 10 := by
        show gst_clock_diff buf_pts buf_pts < GST_SECOND * 2 / 10
        rw [gst_clock_diff_self]
        decide
      unfold gst_vosk_handle_buffer
      split
      · exact ⟨rfl, rfl⟩
      · split
        · exact ⟨rfl, rfl⟩
        · rw [if_pos ⟨hlag, hel⟩]
          exact ⟨rfl, rfl⟩

/-- A ready state whose last-processed timestamp is unset, as right after
(re)activation with a recognizer already installed. -/
def stateC5 : GstVosk := { state0 with last_processed_time := GST_CLOCK_TIME_NONE }

/-- Engine oracle for C5: boundary with a non-empty payload. -/
def engC5 : VoskEngine := ⟨1, some "hello", none, none⟩

/-- Counterexample to claim C5 as stated: the first buffer after
(re)activation, arriving with a recognizer already installed and no lag,
reports a boundary and its payload is emitted — so it is not true that
nothing is emitted for that buffer (and catch-up is evaluated, not
skipped). -/
theorem C5_counterexample :
    stateC5.last_processed_time = GST_CLOCK_TIME_NONE ∧
    stateC5.recognizer.isSome = true ∧
    (gst_vosk_chain engC5 stateC5 0 0 100).emitted = ["hello"] := by decide

/-- Witness for `C5_first_buffer` at a concrete input (recognizer installed,
unset baseline, lag 600 ms). -/
theorem C5_first_buffer_witness :
    stateC5.last_processed_time = GST_CLOCK_TIME_NONE ∧
    ((gst_vosk_chain engC5 stateC5 0 600000000 100).state.last_processed_time = 0 ∧
     (stateC5.recognizer = none →
       (gst_vosk_chain engC5 stateC5 0 600000000 100).state =
         { stateC5 with last_processed_time := 0 } ∧
       (gst_vosk_chain engC5 stateC5 0 600000000 100).fed = false ∧
       (gst_vosk_chain engC5 stateC5 0 600000000 100).queries = [] ∧
       (gst_vosk_chain engC5 stateC5 0 600000000 100).emitted = []) ∧
     (stateC5.recognizer.isSome = true →
       gst_clock_diff 0 600000000 > GST_SECOND / 2 →
       (gst_vosk_chain engC5 stateC5 0 600000000 100).queries = [] ∧
       (gst_vosk_chain engC5 stateC5 0 600000000 100).emitted = [])) :=
  ⟨by decide, C5_first_buffer engC5 stateC5 0 600000000 100 (by decide)⟩

/-! ### Claim C6 — empty sentinel suppression -/

/-- Engine oracle answering every query with the alternate empty-text
sentinel. -/
def engC6 : VoskEngine :=
  ⟨0, some VOSK_EMPTY_TEXT_RESULT_ALT, some VOSK_EMPTY_TEXT_RESULT_ALT,
   some VOSK_EMPTY_TEXT_RESULT_ALT⟩

/-- Engine oracle answering every query with the empty-text sentinel. -/
def engEmptyText : VoskEngine :=
  ⟨0, some VOSK_EMPTY_TEXT_RESULT, some VOSK_EMPTY_TEXT_RESULT,
   some VOSK_EMPTY_TEXT_RESULT⟩

/-- Engine oracle answering every query with the empty-partial sentinel. -/
def engEmptyPartial : VoskEngine :=
  ⟨0, some VOSK_EMPTY_PARTIAL_RESULT, some VOSK_EMPTY_PARTIAL_RESULT,
   some VOSK_EMPTY_PARTIAL_RESULT⟩

/-- Claim C6, evaluated on the code: the final-result query suppresses
`NULL`, the empty-text sentinel and the alternate empty-text sentinel; the
partial query suppresses `NULL`, the empty-partial sentinel and the
alternate sentinel; the forced current-result query suppresses `NULL` and
the empty-text sentinel — but, contrary to the claim (and to the intent
shown by its siblings and its own "Don't send message if empty" comment),
it does NOT suppress the alternate empty-text sentinel: the sentinel is
returned as content and posted as a result message, also from the
utterance-boundary path of the buffer-handling code. -/
theorem C6_sentinel_suppression :
    (gst_vosk_final_result engQuiet state0).1 = none ∧
    (gst_vosk_final_result engEmptyText state0).1 = none ∧
    (gst_vosk_final_result engC6 state0).1 = none ∧
    (gst_vosk_partial_result engQuiet state0).1 = none ∧
    (gst_vosk_partial_result engEmptyPartial state0).1 = none ∧
    (gst_vosk_partial_result engC6 state0).1 = none ∧
    (gst_vosk_result engQuiet state0).1 = none ∧
    (gst_vosk_result engEmptyText state0).1 = none ∧
    (gst_vosk_result engC6 state0).1 = some VOSK_EMPTY_TEXT_RESULT_ALT ∧
    (gst_vosk_result_msg engC6 state0).2 = [VOSK_EMPTY_TEXT_RESULT_ALT] ∧
    (gst_vosk_handle_buffer ⟨1, some VOSK_EMPTY_TEXT_RESULT_ALT, none, none⟩
       state0 0 0 100).emitted = [VOSK_EMPTY_TEXT_RESULT_ALT] := by decide

/-! ### Claims C7 and C8 — denoise frame accumulation and output queue -/

/-- Helper: the accumulation loop runs the transform once per completed
frame — the invocation count grows by `(pos + samples) / frameSize` and the
final accumulator fill is `(pos + samples) % frameSize`. -/
theorem denoiseAccum_count (rn : List Int → List Int) (cap : Nat) :
    ∀ (input acc out : List Int) (n : Nat), acc.length < RNNOISE_FRAME_SIZE →
      (denoiseAccum rn cap input acc out n).2.2 =
        n + (acc.length + input.length) / RNNOISE_FRAME_SIZE ∧
      (denoiseAccum rn cap input acc out n).1.length =
        (acc.length + input.length) % RNNOISE_FRAME_SIZE := by
  intro input
  induction input with
  | nil =>
    intro acc out n h
    unfold denoiseAccum
    unfold RNNOISE_FRAME_SIZE at *
    constructor
    · show n = n + (acc.length + ([] : List Int).length) / 480
      simp only [List.length_nil]
      omega
    · show acc.length = (acc.length + ([] : List Int).length) % 480
      simp only [List.length_nil]
      omega
  | cons x rest ih =>
    intro acc out n h
    unfold denoiseAccum
    by_cases hfull : (acc ++ [x]).length = RNNOISE_FRAME_SIZE
    · rw [if_pos hfull]
      dsimp only
      have hlen : acc.length + 1 = RNNOISE_FRAME_SIZE := by
        simpa using hfull
      obtain ⟨h1, h2⟩ := ih []
        (if out.length + RNNOISE_FRAME_SIZE ≤ cap then out ++ rn (acc ++ [x]) else out)
        (n + 1) (by decide)
      rw [h1, h2]
      unfold RNNOISE_FRAME_SIZE at *
      simp only [List.length_nil, List.length_cons]
      omega
    · rw [if_neg hfull]
      have hlt : (acc ++ [x]).length < RNNOISE_FRAME_SIZE := by
        have : (acc ++ [x]).length = acc.length + 1 := by simp
        unfold RNNOISE_FRAME_SIZE at *
        omega
      obtain ⟨h1, h2⟩ := ih (acc ++ [x]) out n hlt
      rw [h1, h2]
      unfold RNNOISE_FRAME_SIZE at *
      simp only [List.length_append, List.length_cons, List.length_nil]
      omega

/-- Helper: the accumulation loop only ever appends whole cleaned frames to
the output queue — the initial queue is a prefix of the final one — and,
when the transform preserves frame length, the queue never outgrows the
configured capacity because a frame is appended only when it fits. -/
theorem denoiseAccum_out (rn : List Int → List Int) (cap : Nat)
    (hrn : ∀ l, (rn l).length = l.length) :
    ∀ (input acc out : List Int) (n : Nat),
      (∃ extra, (denoiseAccum rn cap input acc out n).2.1 = out ++ extra) ∧
      (out.length ≤ cap → (denoiseAccum rn cap input acc out n).2.1.length ≤ cap) := by
  intro input
  induction input with
  | nil =>
    intro acc out n
    unfold denoiseAccum
    exact ⟨⟨[], by simp⟩, fun hout => hout⟩
  | cons x rest ih =>
    intro acc out n
    unfold denoiseAccum
    by_cases hfull : (acc ++ [x]).length = RNNOISE_FRAME_SIZE
    · rw [if_pos hfull]
      dsimp only
      by_cases hfit : out.length + RNNOISE_FRAME_SIZE ≤ cap
      · rw [if_pos hfit]
        obtain ⟨⟨extra, hex⟩, hcap⟩ := ih [] (out ++ rn (acc ++ [x])) (n + 1)
        refine ⟨⟨rn (acc ++ [x]) ++ extra, by rw [hex, List.append_assoc]⟩,
                fun _ => ?_⟩
        apply hcap
        rw [List.length_append, hrn, hfull]
        exact hfit
      · rw [if_neg hfit]
        exact ih [] out (n + 1)
    · rw [if_neg hfull]
      exact ih (acc ++ [x]) out n

/-- Helper: with denoising enabled, initialised and the rate bound to
48000, `gst_vosk_apply_denoise` takes its active branch. -/
theorem apply_denoise_active (rn : List Int → List Int) (s : GstVosk)
    (buf : List Int) (hen : s.enable_denoise = true)
    (hinit : s.denoise_initialized = true) (hrate : s.rate = 48000) :
    gst_vosk_apply_denoise rn s buf =
      ({ s with
           denoise_input_buffer :=
             (denoiseAccum rn s.denoise_buffer_size buf s.denoise_input_buffer
               s.denoise_output_buffer 0).1,
           denoise_output_buffer :=
             (denoiseAccum rn s.denoise_buffer_size buf s.denoise_input_buffer
               s.denoise_output_buffer 0).2.1.drop
               (min (denoiseAccum rn s.denoise_buffer_size buf s.denoise_input_buffer
                       s.denoise_output_buffer 0).2.1.length buf.length) },
       gst_vosk_convert_float_to_s16
         ((denoiseAccum rn s.denoise_buffer_size buf s.denoise_input_buffer
             s.denoise_output_buffer 0).2.1.take
           (min (denoiseAccum rn s.denoise_buffer_size buf s.denoise_input_buffer
                   s.denoise_output_buffer 0).2.1.length buf.length)) ++
         List.replicate
           (buf.length -
             min (denoiseAccum rn s.denoise_buffer_size buf s.denoise_input_buffer
                    s.denoise_output_buffer 0).2.1.length buf.length) 0,
       (denoiseAccum rn s.denoise_buffer_size buf s.denoise_input_buffer
         s.denoise_output_buffer 0).2.2) := by
  unfold gst_vosk_apply_denoise
  rw [if_neg (by simp [hen, hinit]), if_neg (by simp [hrate])]

/-- Helper: feeding a sequence of buffers through the active denoiser
accumulates invocation counts additively: the total equals
`(initial fill + total samples) / frameSize`, and the accumulator fill ends
at the corresponding remainder. -/
theorem applyDenoiseSeq_count (rn : List Int → List Int) :
    ∀ (chunks : List (List Int)) (s : GstVosk),
      s.enable_denoise = true → s.denoise_initialized = true → s.rate = 48000 →
      s.denoise_input_buffer.length < RNNOISE_FRAME_SIZE →
      (applyDenoiseSeq rn s chunks).2 =
        (s.denoise_input_buffer.length + (chunks.map List.length).sum) /
          RNNOISE_FRAME_SIZE ∧
      (applyDenoiseSeq rn s chunks).1.denoise_input_buffer.length =
        (s.denoise_input_buffer.length + (chunks.map List.length).sum) %
          RNNOISE_FRAME_SIZE := by
  intro chunks
  induction chunks with
  | nil =>
    intro s _ _ _ hlt
    unfold applyDenoiseSeq
    unfold RNNOISE_FRAME_SIZE at *
    simp only [List.map_nil, List.sum_nil]
    constructor
    · omega
    · omega
  | cons b bs ih =>
    intro s hen hinit hrate hlt
    have happ := apply_denoise_active rn s b hen hinit hrate
    obtain ⟨hc, ha⟩ := denoiseAccum_count rn s.denoise_buffer_size b
      s.denoise_input_buffer s.denoise_output_buffer 0 hlt
    have e1 : (gst_vosk_apply_denoise rn s b).2.2 =
        (s.denoise_input_buffer.length + b.length) / RNNOISE_FRAME_SIZE := by
      rw [happ]
      dsimp only
      rw [hc]
      omega
    have e2 : (gst_vosk_apply_denoise rn s b).1.denoise_input_buffer.length =
        (s.denoise_input_buffer.length + b.length) % RNNOISE_FRAME_SIZE := by
      rw [happ]
      dsimp only
      exact ha
    have e3 : (gst_vosk_apply_denoise rn s b).1.enable_denoise = true := by
      rw [happ]
      exact hen
    have e4 : (gst_vosk_apply_denoise rn s b).1.denoise_initialized = true := by
      rw [happ]
      exact hinit
    have e5 : (gst_vosk_apply_denoise rn s b).1.rate = 48000 := by
      rw [happ]
      exact hrate
    obtain ⟨hs1, hs2⟩ := ih ((gst_vosk_apply_denoise rn s b).1) e3 e4 e5
      (by rw [e2]; unfold RNNOISE_FRAME_SIZE; omega)
    unfold applyDenoiseSeq
    rw [hs1, hs2, e1, e2]
    simp only [List.map_cons, List.sum_cons]
    unfold RNNOISE_FRAME_SIZE
    constructor
    · omega
    · omega

/-- Claim C7: with denoising active at the required 48000 Hz rate and an
empty input accumulator, feeding input chunks of arbitrary sizes whose
samples total `k × 480` invokes the noise-suppression transform exactly `k`
times (once per completed accumulated frame); and each processed buffer is
rewritten, at its full length, with `min(requested, available)` clean
samples taken (clamped to S16) from the front of the accumulated output
queue — the queue keeping only the remainder — with any shortfall filled
with silence. -/
theorem C7_frame_accumulation (rn : List Int → List Int) (s : GstVosk)
    (chunks : List (List Int)) (k : Nat) (buf : List Int)
    (hen : s.enable_denoise = true) (hinit : s.denoise_initialized = true)
    (hrate : s.rate = 48000) (hacc0 : s.denoise_input_buffer = [])
    (htot : (chunks.map List.length).sum = k * RNNOISE_FRAME_SIZE) :
    (applyDenoiseSeq rn s chunks).2 = k ∧
    (gst_vosk_apply_denoise rn s buf).2.1.length = buf.length ∧
    (gst_vosk_apply_denoise rn s buf).2.1 =
      gst_vosk_convert_float_to_s16
        ((denoiseAccum rn s.denoise_buffer_size buf [] s.denoise_output_buffer 0).2.1.take
          (min (denoiseAccum rn s.denoise_buffer_size buf [] s.denoise_output_buffer
                  0).2.1.length buf.length)) ++
      List.replicate
        (buf.length -
          min (denoiseAccum rn s.denoise_buffer_size buf [] s.denoise_output_buffer
                 0).2.1.length buf.length) 0 ∧
    (gst_vosk_apply_denoise rn s buf).1.denoise_output_buffer =
      (denoiseAccum rn s.denoise_buffer_size buf [] s.denoise_output_buffer 0).2.1.drop
        (min (denoiseAccum rn s.denoise_buffer_size buf [] s.denoise_output_buffer
                0).2.1.length buf.length) := by
  have happ := apply_denoise_active rn s buf hen hinit hrate
  rw [hacc0] at happ
  obtain ⟨hc, _⟩ := applyDenoiseSeq_count rn chunks s hen hinit hrate
    (by rw [hacc0]; decide)
  refine ⟨?_, ?_, ?_, ?_⟩
  · rw [hc, hacc0, htot]
    simp only [List.length_nil]
    unfold RNNOISE_FRAME_SIZE
    omega
  · rw [happ]
    dsimp only
    unfold gst_vosk_convert_float_to_s16
    rw [List.length_append, List.length_map, List.length_take, List.length_replicate]
    omega
  · rw [happ]
  · rw [happ]

/-- A state with denoising active at 48 kHz and freshly initialised
buffers. -/
def stateDen : GstVosk :=
  { state0 with rate := 48000, enable_denoise := true,
                denoise_initialized := true, denoise_buffer_size := 960 }

set_option maxRecDepth 4000 in
/-- Witness for `C7_frame_accumulation`: the identity transform, two
non-frame-aligned chunks of 300 and 180 samples (one full frame in total),
and a 3-sample buffer to drain. -/
theorem C7_frame_accumulation_witness :
    stateDen.enable_denoise = true ∧ stateDen.denoise_initialized = true ∧
    stateDen.rate = 48000 ∧ stateDen.denoise_input_buffer = [] ∧
    (([List.replicate 300 0, List.replicate 180 0].map List.length).sum =
      1 * RNNOISE_FRAME_SIZE) ∧
    ((applyDenoiseSeq id stateDen [List.replicate 300 0, List.replicate 180 0]).2 = 1 ∧
     (gst_vosk_apply_denoise id stateDen [1, 2, 3]).2.1.length = [1, 2, 3].length ∧
     (gst_vosk_apply_denoise id stateDen [1, 2, 3]).2.1 =
       gst_vosk_convert_float_to_s16
         ((denoiseAccum id stateDen.denoise_buffer_size [1, 2, 3] []
             stateDen.denoise_output_buffer 0).2.1.take
           (min (denoiseAccum id stateDen.denoise_buffer_size [1, 2, 3] []
                   stateDen.denoise_output_buffer 0).2.1.length [1, 2, 3].length)) ++
       List.replicate
         ([1, 2, 3].length -
           min (denoiseAccum id stateDen.denoise_buffer_size [1, 2, 3] []
                  stateDen.denoise_output_buffer 0).2.1.length [1, 2, 3].length) 0 ∧
     (gst_vosk_apply_denoise id stateDen [1, 2, 3]).1.denoise_output_buffer =
       (denoiseAccum id stateDen.denoise_buffer_size [1, 2, 3] []
           stateDen.denoise_output_buffer 0).2.1.drop
         (min (denoiseAccum id stateDen.denoise_buffer_size [1, 2, 3] []
                 stateDen.denoise_output_buffer 0).2.1.length [1, 2, 3].length)) :=
  ⟨by decide, by decide, by decide, by decide, by decide,
   C7_frame_accumulation id stateDen [List.replicate 300 0, List.replicate 180 0] 1
     [1, 2, 3] (by decide) (by decide) (by decide) (by decide) (by decide)⟩

/-- Claim C8: provided the noise-suppression transform preserves frame
length (it rewrites a frame in place), an accumulate/drain pass whose
output queue starts within the configured capacity leaves it within that
capacity, the capacity itself unchanged; during accumulation the existing
queue contents are never overwritten — the pre-existing queue is a prefix
of the accumulated queue, a newly processed frame being appended only when
it fits entirely (and dropped otherwise), so the accumulated queue also
respects the capacity. -/
theorem C8_output_queue_bounded (rn : List Int → List Int)
    (hrn : ∀ l, (rn l).length = l.length) (s : GstVosk) (buf : List Int)
    (hcap : s.denoise_output_buffer.length ≤ s.denoise_buffer_size) :
    (gst_vosk_apply_denoise rn s buf).1.denoise_output_buffer.length ≤
      s.denoise_buffer_size ∧
    (gst_vosk_apply_denoise rn s buf).1.denoise_buffer_size =
      s.denoise_buffer_size ∧
    (∃ extra,
      (denoiseAccum rn s.denoise_buffer_size buf s.denoise_input_buffer
        s.denoise_output_buffer 0).2.1 = s.denoise_output_buffer ++ extra) ∧
    (denoiseAccum rn s.denoise_buffer_size buf s.denoise_input_buffer
      s.denoise_output_buffer 0).2.1.length ≤ s.denoise_buffer_size := by
  obtain ⟨hext, hlen⟩ := denoiseAccum_out rn s.denoise_buffer_size hrn buf
    s.denoise_input_buffer s.denoise_output_buffer 0
  refine ⟨?_, ?_, hext, hlen hcap⟩
  · unfold gst_vosk_apply_denoise
    split
    · exact hcap
    · split
      · exact hcap
      · dsimp only
        rw [List.length_drop]
        have := hlen hcap
        omega
  · unfold gst_vosk_apply_denoise
    split
    · rfl
    · split
      · rfl
      · rfl

/-- Witness for `C8_output_queue_bounded`: the identity transform, a
5-sample buffer and an in-capacity starting queue. -/
theorem C8_output_queue_bounded_witness :
    stateDen.denoise_output_buffer.length ≤ stateDen.denoise_buffer_size ∧
    ((gst_vosk_apply_denoise id stateDen [7, 7, 7, 7, 7]).1.denoise_output_buffer.length ≤
      stateDen.denoise_buffer_size ∧
    (gst_vosk_apply_denoise id stateDen [7, 7, 7, 7, 7]).1.denoise_buffer_size =
      stateDen.denoise_buffer_size ∧
    (∃ extra,
      (denoiseAccum id stateDen.denoise_buffer_size [7, 7, 7, 7, 7]
        stateDen.denoise_input_buffer stateDen.denoise_output_buffer 0).2.1 =
        stateDen.denoise_output_buffer ++ extra) ∧
    (denoiseAccum id stateDen.denoise_buffer_size [7, 7, 7, 7, 7]
      stateDen.denoise_input_buffer stateDen.denoise_output_buffer 0).2.1.length ≤
      stateDen.denoise_buffer_size) :=
  ⟨by decide,
   C8_output_queue_bounded id (fun _ => rfl) stateDen [7, 7, 7, 7, 7] (by decide)⟩

/-! ### Claim C9 — cancelled model loads are never installed -/

/-- Claim C9: a model load whose cancellation flag is set (at either
cooperative check point) never installs a recognizer and never reports an
engine error; if the worker observes cancellation before starting
construction it exits with no side effect at all, and if it first observes
cancellation after construction (the check made under the session lock) the
freshly built model is freed and the only state change is dropping the
pending-operation object — the recognizer and every session field are left
untouched. -/
theorem C9_cancelled_load_not_installed (c1 c2 : Bool) (built_model : Option Nat)
    (caps_rate : Int) (s : GstVosk) (hcanc : c1 = true ∨ c2 = true) :
    ((gst_vosk_load_model_async c1 c2 built_model caps_rate s).1.recognizer =
       s.recognizer ∧
     (gst_vosk_load_model_async c1 c2 built_model caps_rate s).2.installedNew =
       false ∧
     (gst_vosk_load_model_async c1 c2 built_model caps_rate s).2.errorReported =
       false) ∧
    (c1 = true →
      gst_vosk_load_model_async c1 c2 built_model caps_rate s =
        (s, ⟨false, false, false, false⟩)) ∧
    (c1 = false → c2 = true →
      gst_vosk_load_model_async c1 c2 built_model caps_rate s =
        ({ s with current_operation := false }, ⟨false, true, false, false⟩)) := by
  cases c1 with
  | false =>
    cases c2 with
    | false =>
      rcases hcanc with h | h
      · exact absurd h (by decide)
      · exact absurd h (by decide)
    | true =>
      exact ⟨⟨rfl, rfl, rfl⟩, fun h => absurd h (by decide), fun _ _ => rfl⟩
  | true =>
    cases c2 with
    | false =>
      exact ⟨⟨rfl, rfl, rfl⟩, fun _ => rfl, fun h _ => absurd h (by decide)⟩
    | true =>
      exact ⟨⟨rfl, rfl, rfl⟩, fun _ => rfl, fun h _ => absurd h (by decide)⟩

/-- Witness for `C9_cancelled_load_not_installed`: cancellation observed at
the second check (after construction), model id 7, rate 16000. -/
theorem C9_cancelled_load_not_installed_witness :
    ((false : Bool) = true ∨ (true : Bool) = true) ∧
    (((gst_vosk_load_model_async false true (some 7) 16000 state0).1.recognizer =
        state0.recognizer ∧
      (gst_vosk_load_model_async false true (some 7) 16000 state0).2.installedNew =
        false ∧
      (gst_vosk_load_model_async false true (some 7) 16000 state0).2.errorReported =
        false) ∧
     ((false : Bool) = true →
       gst_vosk_load_model_async false true (some 7) 16000 state0 =
         (state0, ⟨false, false, false, false⟩)) ∧
     ((false : Bool) = false → (true : Bool) = true →
       gst_vosk_load_model_async false true (some 7) 16000 state0 =
         ({ state0 with current_operation := false }, ⟨false, true, false, false⟩))) :=
  ⟨Or.inr rfl,
   C9_cancelled_load_not_installed false true (some 7) 16000 state0 (Or.inr rfl)⟩

/-! ### Claim C10 — partial-results-interval property roundtrip -/

/-- Claim C10 (amended): for every value `v` of the
partial-results-interval property with `-1 ≤ v ≤ 9223372036854` (i.e. those
accepted values whose nanosecond image `v * 1 000 000` still fits in a
signed 64-bit integer), setting the property to `v` and reading it back
returns `v`: the setter stores `v * GST_MSECOND` and the getter divides by
`GST_MSECOND`. -/
theorem C10_interval_roundtrip (s : GstVosk) (v : Int)
    (h1 : -1 ≤ v) (h2 : v ≤ 9223372036854) :
    gst_vosk_get_partial_results_interval
      (gst_vosk_set_partial_results_interval s v) = v := by
  unfold gst_vosk_get_partial_results_interval gst_vosk_set_partial_results_interval
  dsimp only
  unfold toInt64 GST_MSECOND
  have hid : (v * 1000000 + 9223372036854775808) % 18446744073709551616 -
      9223372036854775808 = v * 1000000 := by omega
  rw [hid]
  exact Int.mul_tdiv_cancel v (by decide)

/-- Counterexample to claim C10 as stated: at `v = 9223372036855` (inside
the property's accepted range `v ≥ -1`) the stored `gint64` product
`v * 1 000 000` wraps around, and reading the property back yields
`-9223372036854`, not `v`. -/
theorem C10_counterexample :
    -1 ≤ (9223372036855 : Int) ∧
    gst_vosk_get_partial_results_interval
      (gst_vosk_set_partial_results_interval state0 9223372036855) =
      -9223372036854 ∧
    gst_vosk_get_partial_results_interval
      (gst_vosk_set_partial_results_interval state0 9223372036855) ≠
      9223372036855 := by decide

/-- Witness for `C10_interval_roundtrip` at the disable value `-1`. -/
theorem C10_interval_roundtrip_witness :
    -1 ≤ (-1 : Int) ∧ (-1 : Int) ≤ 9223372036854 ∧
    gst_vosk_get_partial_results_interval
      (gst_vosk_set_partial_results_interval state0 (-1)) = -1 :=
  ⟨by decide, by decide, C10_interval_roundtrip state0 (-1) (by decide) (by decide)⟩
